import Mathlib

/-!
Verification development for the m3u-STRM-Processor core subsystems:
the channel identity / merge resolution engine (`channel_matcher.py`,
`sync_tasks.py`), the stream health monitor (`health_checker.py`,
`health_tasks.py`), the stream quality analyzer (`quality_analyzer.py`)
and the shared stream connection multiplexer
(`stream_connection_manager.py`).

The Python code is shallowly embedded: strings are `String`/`List Char`,
Python `float` arithmetic on exact decimal inputs is modelled with `ℚ`,
database rows are Lean structures and result sets are `List`s in
insertion order.  The regex operations used by the sources
(`re.sub`/`re.search` on the fixed patterns of `channel_matcher.py` and
`quality_analyzer.py`) are implemented character by character with the
semantics of CPython's `re` module (leftmost match, lazy `.*?` with `.`
not matching a newline, `\b` word boundaries, single left-to-right
substitution pass).  The rapidfuzz string-similarity primitives are an
external library, not repository code, so they enter the model as an
oracle record (`FuzzOracle`) that theorems quantify over.
-/

namespace M3U

/-- Python str whitespace (the characters matched by `str.strip`,
`str.split` and the regex class `\s` on ASCII text): space, tab,
newline, carriage return, vertical tab, form feed. -/
def pyIsSpace (c : Char) : Bool :=
  c = ' ' || c = '\t' || c = '\n' || c = '\r' || c = Char.ofNat 11 || c = Char.ofNat 12

/-- Python `str.lower` restricted to its ASCII behaviour (channel names in
the repository's vocabulary lists are ASCII). -/
def pyLowerChars (s : List Char) : List Char := s.map Char.toLower

/-- Python `str.strip()`: remove leading and trailing whitespace. -/
def pyStripChars (s : List Char) : List Char :=
  ((s.dropWhile pyIsSpace).reverse.dropWhile pyIsSpace).reverse

/-- Distance (number of characters consumed, including the closer) from the
current position to the first closing delimiter, failing on a newline first:
this is exactly which spans `\[.*?\]` (lazy dot, `.` excludes newline) can
match starting at an opener. -/
def findClose (cls : Char) : List Char → Option Nat
  | [] => none
  | c :: r =>
    if c = cls then some 1
    else if c = '\n' then none
    else (findClose cls r).map (· + 1)

/-- One pass of `re.sub` for the noise pattern `\[.*?\]` (resp. `\(.*?\)`)
with replacement a single space: scan left to right; at an opener with a
reachable closer, emit one space and skip the matched span; otherwise copy
the character.  The `Nat` argument is the number of characters still to be
skipped from the current match. -/
def subDelimGo (opn cls : Char) : Nat → List Char → List Char
  | _, [] => []
  | n + 1, _ :: r => subDelimGo opn cls n r
  | 0, c :: r =>
    if c = opn then
      match findClose cls r with
      | some n => ' ' :: subDelimGo opn cls n r
      | none => c :: subDelimGo opn cls 0 r
    else c :: subDelimGo opn cls 0 r

/-- The (greedy, always-successful) match of `^\s*[|-]?\s*` at the start of
the string: maximal whitespace run, at most one `|` or `-`, maximal
whitespace run.  Returns the remainder after the match. -/
def dropLeadSep (s : List Char) : List Char :=
  let s1 := s.dropWhile pyIsSpace
  match s1 with
  | c :: r => if c = '|' || c = '-' then r.dropWhile pyIsSpace else s1
  | [] => []

/-- `re.sub(r'^\s*[|-]?\s*', ' ', s)`: the anchored pattern matches exactly
once (possibly empty) and is replaced by one space. -/
def subLeading (s : List Char) : List Char := ' ' :: dropLeadSep s

/-- Does the whole string match `\s*[|-]?\s*` (so that, at this suffix
position, the trailing-noise pattern can run to `$`)? -/
def trailMatch (s : List Char) : Bool :=
  match s.dropWhile pyIsSpace with
  | [] => true
  | c :: r => (c = '|' || c = '-') && (r.dropWhile pyIsSpace).isEmpty

/-- `re.sub(r'\s*[|-]?\s*$', ' ', s)`: the leftmost suffix matching the
pattern is replaced by a space; when that match is nonempty, CPython
(3.7+ semantics) additionally replaces the adjacent empty match at the end
of the string, appending a second space. -/
def subTrailing : List Char → List Char
  | [] => [' ']
  | c :: r =>
    if trailMatch (c :: r) then [' ', ' ']
    else c :: subTrailing r

/-- `re.sub(r'\s+', ' ', s)`: collapse each maximal whitespace run to a
single space.  The Bool flag records whether the previous character was
inside a run already emitted. -/
def collapseWsGo : Bool → List Char → List Char
  | _, [] => []
  | inRun, c :: r =>
    if pyIsSpace c then
      if inRun then collapseWsGo true r else ' ' :: collapseWsGo true r
    else c :: collapseWsGo false r

/-- Python `' '.join(s.split())`: whitespace runs collapse to single spaces
and boundary whitespace disappears. -/
def joinSplit (s : List Char) : List Char :=
  pyStripChars (collapseWsGo false s)

/-- `ChannelMatcher.normalize_name` (channel_matcher.py:56-78): empty guard,
lower-case and strip, then the five NOISE_PATTERNS substitutions in order
(brackets, parentheses, leading separator, trailing separator, whitespace
collapse), then `' '.join(normalized.split())`. -/
def normalize_name (name : String) : String :=
  if name = "" then ""
  else
    let s0 := pyStripChars (pyLowerChars name.toList)
    let s1 := subDelimGo '[' ']' 0 s0
    let s2 := subDelimGo '(' ')' 0 s1
    let s3 := subLeading s2
    let s4 := subTrailing s3
    let s5 := collapseWsGo false s4
    String.mk (joinSplit s5)

/-- A regex word character (`\w`) for the ASCII text handled here:
alphanumeric or underscore. -/
def isWordChar (c : Char) : Bool := c.isAlphanum || c = '_'

def optIsWord : Option Char → Bool
  | some c => isWordChar c
  | none => false

/-- A `\b` word boundary sits between two (possibly absent) characters
exactly when their word-ness differs. -/
def wordBoundary (a b : Option Char) : Bool := optIsWord a != optIsWord b

/-- Does `re.search(r'\b' + re.escape(t) + r'\b', s)` succeed?  Scans every
position; a hit needs the literal token with a word boundary on each side.
`prev` is the character before the current position. -/
def searchWordTok (t : List Char) : Option Char → List Char → Bool
  | _, [] => false
  | prev, c :: r =>
    (t.isPrefixOf (c :: r) && wordBoundary prev (some c) &&
      wordBoundary ((c :: r).get? (t.length - 1)) ((c :: r).get? t.length)) ||
    searchWordTok t (some c) r

/-- Does `re.search(r'\b..\b|..(?=\s|$)', s)` succeed for token `t` — the
variant pattern of `ChannelMatcher.extract_variant`: either a whole word, or
the token anywhere provided the next character is whitespace or the end. -/
def searchVariantTok (t : List Char) : Option Char → List Char → Bool
  | _, [] => false
  | prev, c :: r =>
    (t.isPrefixOf (c :: r) &&
      ((wordBoundary prev (some c) &&
          wordBoundary ((c :: r).get? (t.length - 1)) ((c :: r).get? t.length)) ||
        (match (c :: r).get? t.length with
          | none => true
          | some d => pyIsSpace d))) ||
    searchVariantTok t (some c) r

/-- `ChannelMatcher.REGIONS` (channel_matcher.py:18-23), in order. -/
def REGIONS : List String :=
  ["east", "west", "north", "south", "central",
   "ontario", "quebec", "alberta", "bc", "atlantic",
   "pacific", "mountain", "eastern", "western",
   "usa", "us", "uk", "ca", "canadian", "american", "british"]

/-- `ChannelMatcher.VARIANTS` (channel_matcher.py:26-30), in order. -/
def VARIANTS : List String :=
  ["hd", "sd", "4k", "uhd", "fhd",
   "plus", "+", "premium", "extra",
   "1", "2", "3", "news", "sports", "movies"]

/-- Python `str.capitalize()` on ASCII: first character upper-cased, the
rest lower-cased. -/
def pyCapitalize (s : String) : String :=
  match s.toList with
  | [] => ""
  | c :: r => String.mk (c.toUpper :: r.map Char.toLower)

def strLower (s : String) : String := String.mk (pyLowerChars s.toList)

def strUpper (s : String) : String := String.mk (s.toList.map Char.toUpper)

/-- Python `str.isupper()` on ASCII: at least one cased character and no
lower-case one. -/
def pyIsUpperStr (s : String) : Bool :=
  s.toList.any Char.isUpper && s.toList.all (fun c => !c.isLower)

/-- `ChannelMatcher.extract_region` (channel_matcher.py:80-98): first
REGIONS token found as a whole word in the lower-cased name, capitalized;
otherwise None. -/
def extract_region (name : String) : Option String :=
  let norm := pyLowerChars name.toList
  (REGIONS.find? (fun t => searchWordTok t.toList none norm)).map pyCapitalize

/-- The display form `variant.upper() if variant.isupper() or len(variant) <= 2
else variant.capitalize()` from `extract_variant`. -/
def variantDisplay (v : String) : String :=
  if pyIsUpperStr v || v.length ≤ 2 then strUpper v else pyCapitalize v

/-- `ChannelMatcher.extract_variant` (channel_matcher.py:100-118): first
VARIANTS token matching the word-or-followed-by-space pattern in the
lower-cased name. -/
def extract_variant (name : String) : Option String :=
  let norm := pyLowerChars name.toList
  (VARIANTS.find? (fun t => searchVariantTok t.toList none norm)).map variantDisplay

/-- One `re.sub(r'\b' + re.escape(t) + r'\b', '', s)` pass: matched tokens
are removed, everything else is copied.  `prev` is the previous character of
the original string (boundaries are judged on the original text) and the
`Nat` counts characters of a match still being skipped. -/
def subWordTokGo (t : List Char) : Option Char → Nat → List Char → List Char
  | _, _, [] => []
  | _, n + 1, c :: r => subWordTokGo t (some c) n r
  | prev, 0, c :: r =>
    if t.isPrefixOf (c :: r) && wordBoundary prev (some c) &&
        wordBoundary ((c :: r).get? (t.length - 1)) ((c :: r).get? t.length) then
      subWordTokGo t (some c) (t.length - 1) r
    else c :: subWordTokGo t (some c) 0 r

/-- One `re.sub(r'\b..\b|..(?=\s|$)', '', s)` pass for a variant token
(same alternation as `searchVariantTok`). -/
def subVariantTokGo (t : List Char) : Option Char → Nat → List Char → List Char
  | _, _, [] => []
  | _, n + 1, c :: r => subVariantTokGo t (some c) n r
  | prev, 0, c :: r =>
    if t.isPrefixOf (c :: r) &&
        ((wordBoundary prev (some c) &&
            wordBoundary ((c :: r).get? (t.length - 1)) ((c :: r).get? t.length)) ||
          (match (c :: r).get? t.length with
            | none => true
            | some d => pyIsSpace d)) then
      subVariantTokGo t (some c) (t.length - 1) r
    else c :: subVariantTokGo t (some c) 0 r

/-- `ChannelMatcher.extract_base_name` (channel_matcher.py:120-145):
normalize, strip every REGIONS token (whole-word), strip every VARIANTS
token (variant pattern), re-join on single spaces, strip.  The
`flags=re.IGNORECASE` of the source is the identity here because the
normalized text and the vocabulary are both lower case. -/
def extract_base_name (name : String) : String :=
  let n0 := (normalize_name name).toList
  let n1 := REGIONS.foldl (fun acc t => subWordTokGo t.toList none 0 acc) n0
  let n2 := VARIANTS.foldl (fun acc t => subVariantTokGo t.toList none 0 acc) n1
  String.mk (pyStripChars (joinSplit n2))

/-- The four rapidfuzz scorers used by `calculate_similarity`
(`fuzz.ratio`, `fuzz.partial_ratio`, `fuzz.token_sort_ratio`,
`fuzz.token_set_ratio`).  They are an external library, so the model takes
them as an oracle; each returns a similarity in `[0, 100]`. -/
structure FuzzOracle where
  simFull : String → String → ℚ
  simPart : String → String → ℚ
  simTokSort : String → String → ℚ
  simTokSet : String → String → ℚ

/-- `ChannelMatcher.calculate_similarity` (channel_matcher.py:147-170):
normalize both names and return the maximum of the four scorers. -/
def calculate_similarity (fz : FuzzOracle) (name1 name2 : String) : ℚ :=
  let n1 := normalize_name name1
  let n2 := normalize_name name2
  max (max (fz.simFull n1 n2) (fz.simPart n1 n2))
    (max (fz.simTokSort n1 n2) (fz.simTokSet n1 n2))

/-- Python truthiness of an optional string: `None` and `''` are falsy. -/
def pyTruthyOpt : Option String → Bool
  | none => false
  | some s => s != ""

/-- `ChannelMatcher.is_same_channel` (channel_matcher.py:172-217): base-name
similarity must reach the fuzzy threshold; regions (resp. variants) are
re-extracted from the names when passed as `None`; two present-and-truthy
regions (resp. variants) that differ case-insensitively disqualify. -/
def is_same_channel (fz : FuzzOracle) (thr : ℚ) (name1 name2 : String)
    (region1 region2 variant1 variant2 : Option String) : Bool :=
  let base1 := extract_base_name name1
  let base2 := extract_base_name name2
  let similarity := calculate_similarity fz base1 base2
  if similarity < thr then false
  else
    let r1 := match region1 with | none => extract_region name1 | some s => some s
    let r2 := match region2 with | none => extract_region name2 | some s => some s
    let v1 := match variant1 with | none => extract_variant name1 | some s => some s
    let v2 := match variant2 with | none => extract_variant name2 | some s => some s
    if pyTruthyOpt r1 = true ∧ pyTruthyOpt r2 = true ∧
        strLower (r1.getD "") ≠ strLower (r2.getD "") then false
    else if pyTruthyOpt v1 = true ∧ pyTruthyOpt v2 = true ∧
        strLower (v1.getD "") ≠ strLower (v2.getD "") then false
    else true

/-- A row of the `channels` table, restricted to the columns read or
written by `_find_or_create_channel` and `_update_channel_stream_counts`. -/
structure Channel where
  id : Nat
  name : String
  normalized_name : String
  category : String
  region : Option String
  variant : Option String
  logo_url : Option String
  enabled : Bool
  stream_count : Nat
deriving DecidableEq

/-- The merge metadata dictionary returned by `_find_or_create_channel`. -/
structure MergeInfo where
  confidence : ℚ
  method : String
  reason : String
deriving DecidableEq

/-- A single-quote character, used when rebuilding the f-string reason
messages of `sync_tasks.py`. -/
def sq : String := String.mk [Char.ofNat 39]

/-- Python `str(x)` of an optional string as an f-string renders it:
`None` prints as the text None. -/
def pyShowOpt : Option String → String
  | none => "None"
  | some s => s

/-- Round-half-to-even on an exact rational, the rounding used by Python's
builtin `round` (the binary-float artifacts of the original are not
modelled; similarity scores here are exact). -/
def roundHalfEven (q : ℚ) : ℤ :=
  let f := ⌊q⌋
  let r := q - f
  if r < 1 / 2 then f
  else if 1 / 2 < r then f + 1
  else if f % 2 = 0 then f else f + 1

/-- Python `round(x, 1)`. -/
def pyRound1 (q : ℚ) : ℚ := (roundHalfEven (q * 10) : ℚ) / 10

/-- Python `format(x, '.1f')` for the non-negative similarity values that
occur here. -/
def fmtFixed1 (q : ℚ) : String :=
  let n := roundHalfEven (q * 10)
  let m := n.natAbs
  (if n < 0 then "-" else "") ++ toString (m / 10) ++ "." ++ toString (m % 10)

/-- The reason f-string of the exact-match branch of
`_find_or_create_channel` (sync_tasks.py:288-292). -/
def exactReason (nn : String) (region variant : Option String) : String :=
  "Exact match on normalized name " ++ sq ++ nn ++ sq ++ ", region " ++ sq ++
    pyShowOpt region ++ sq ++ ", variant " ++ sq ++ pyShowOpt variant ++ sq

/-- The reason f-string of the fuzzy-match branch (sync_tasks.py:320-324). -/
def fuzzyReason (best : ℚ) (nn : String) : String :=
  "Matched with " ++ fmtFixed1 best ++ "% similarity on normalized name " ++
    sq ++ nn ++ sq

/-- The reason f-string of the new-channel branch (sync_tasks.py:348-352). -/
def newChannelReason (name : String) : String :=
  "First stream for new channel " ++ sq ++ name ++ sq

/-- The exact-key query of `_find_or_create_channel` (sync_tasks.py:273-281):
first channel whose (normalized_name, region, variant) equals the entry's
triple, in table order (`.limit(1)`; SQLAlchemy renders comparison with a
Python `None` as IS NULL, so `none = none` matches). -/
def exactMatchChannel (db : List Channel) (nn : String)
    (region variant : Option String) : Option Channel :=
  db.find? (fun c => c.normalized_name == nn && c.region == region && c.variant == variant)

/-- The candidate set of the fuzzy loop (sync_tasks.py:295-299): all
channels sharing the normalized name, regardless of region/variant. -/
def fuzzyCandidates (db : List Channel) (nn : String) : List Channel :=
  db.filter (fun c => c.normalized_name == nn)

/-- One iteration of the fuzzy loop (sync_tasks.py:305-316): compute the
similarity of the raw names, and take the candidate when `is_same_channel`
accepts it and it strictly beats the best similarity so far. -/
def fuzzyStep (fz : FuzzOracle) (thr : ℚ) (name : String)
    (region variant : Option String) (acc : Option Channel × ℚ) (ec : Channel) :
    Option Channel × ℚ :=
  let similarity := calculate_similarity fz name ec.name
  if is_same_channel fz thr name ec.name region ec.region variant ec.variant then
    if acc.2 < similarity then (some ec, similarity) else acc
  else acc

/-- The whole fuzzy loop, started from (no match, best similarity 0). -/
def pickFuzzyMatch (fz : FuzzOracle) (thr : ℚ) (name : String)
    (region variant : Option String) (cands : List Channel) : Option Channel × ℚ :=
  cands.foldl (fuzzyStep fz thr name region variant) (none, 0)

/-- The opportunistic logo backfill (`if not channel.logo_url and logo_url`). -/
def backfillLogo (c : Channel) (logo : Option String) : Channel :=
  if !(pyTruthyOpt c.logo_url) && pyTruthyOpt logo then { c with logo_url := logo } else c

/-- Autoincrement id for a newly flushed row, modelled as one past the
largest id present. -/
def nextChannelId (db : List Channel) : Nat :=
  db.foldl (fun m c => max m (c.id + 1)) 0

/-- The new channel built by the final branch of `_find_or_create_channel`
(sync_tasks.py:334-343), seeded from the entry. -/
def newChannelFrom (db : List Channel) (name nn category : String)
    (region variant logo_url : Option String) : Channel :=
  { id := nextChannelId db, name := name, normalized_name := nn,
    category := category, region := region, variant := variant,
    logo_url := logo_url, enabled := true, stream_count := 1 }

/-- `_find_or_create_channel` (sync_tasks.py:270-354).  Returns the
resolved channel, the merge metadata and the updated channel table.  Exact
branch: logo backfill only.  Fuzzy branch: logo backfill plus
`stream_count += 1`.  Otherwise a new channel is created (note: the source
labels both the exact branch and the new-channel branch with method
`exact_match`).  No MergeRule is consulted anywhere in this function. -/
def find_or_create_channel (fz : FuzzOracle) (thr : ℚ) (db : List Channel)
    (name nn category : String) (region variant logo_url : Option String) :
    Channel × MergeInfo × List Channel :=
  match exactMatchChannel db nn region variant with
  | some c =>
    let c2 := backfillLogo c logo_url
    (c2, ⟨100, "exact_match", exactReason nn region variant⟩,
      db.map (fun x => if x.id == c.id then c2 else x))
  | none =>
    match pickFuzzyMatch fz thr name region variant (fuzzyCandidates db nn) with
    | (some c, best) =>
      let c2 := backfillLogo c logo_url
      let c3 := { c2 with stream_count := c2.stream_count + 1 }
      (c3, ⟨pyRound1 best, "fuzzy_match", fuzzyReason best nn⟩,
        db.map (fun x => if x.id == c.id then c3 else x))
    | (none, _) =>
      let newc := newChannelFrom db name nn category region variant logo_url
      (newc, ⟨100, "exact_match", newChannelReason name⟩, db ++ [newc])

/-- A row of the `merge_rules` table (models/merge_rule.py). -/
structure MergeRule where
  rule_type : String
  pattern1 : String
  pattern2 : Option String
  region1 : Option String
  region2 : Option String
  provider_id : Option Nat
  priority : Int
  enabled : Bool
deriving DecidableEq

/-- Is `t` a contiguous subsequence of `s`? -/
def containsSeq (t : List Char) : List Char → Bool
  | [] => t.isEmpty
  | c :: r => t.isPrefixOf (c :: r) || containsSeq t r

/-- `re.search(pattern, s, re.IGNORECASE)` for a pattern free of regex
metacharacters (the literal patterns used in the rule examples):
case-insensitive substring search. -/
def reSearchPlain (pat s : String) : Bool :=
  containsSeq (pyLowerChars pat.toList) (pyLowerChars s.toList)

def pyTruthyStr (s : String) : Bool := s != ""

/-- `MergeRule.matches` (models/merge_rule.py:46-68): pattern1 against the
first name, pattern2 (when set) against the second, then the optional
region filters; any failing check rejects the rule. -/
def mergeRuleMatches (rule : MergeRule) (channel1_name channel2_name : String)
    (channel1_region channel2_region : Option String) : Bool :=
  if pyTruthyStr rule.pattern1 && !reSearchPlain rule.pattern1 channel1_name then false
  else if pyTruthyOpt rule.pattern2 &&
      !reSearchPlain (rule.pattern2.getD "") channel2_name then false
  else if pyTruthyOpt rule.region1 && pyTruthyOpt channel1_region &&
      rule.region1 != channel1_region then false
  else if pyTruthyOpt rule.region2 && pyTruthyOpt channel2_region &&
      rule.region2 != channel2_region then false
  else true

/-- A row of the `channel_streams` table, restricted to the columns touched
by the health tasks. -/
structure ChannelStream where
  id : Nat
  channel_id : Nat
  stream_url : String
  is_active : Bool
  consecutive_failures : Nat
  quality_score : Int
  priority_order : Int
  response_time : Option ℚ
  failure_reason : Option String
  last_check : Option Nat
  last_success : Option Nat
  last_failure : Option Nat
deriving DecidableEq

/-- The per-stream database update of `_run_health_check_async`
(health_tasks.py:80-97) for one probe result; `now` abstracts
`datetime.utcnow()`.  A success zeroes the failure streak; a failure
increments it, records the reason, and deactivates the stream as soon as
the streak reaches 3. -/
def applyHealthResult (now : Nat) (s : ChannelStream) (is_alive : Bool)
    (response_time : Option ℚ) (error : Option String) : ChannelStream :=
  let s := { s with last_check := some now, response_time := response_time }
  if is_alive then
    { s with consecutive_failures := 0, last_success := some now }
  else
    let s := { s with consecutive_failures := s.consecutive_failures + 1,
                      last_failure := some now, failure_reason := error }
    if s.consecutive_failures ≥ 3 then { s with is_active := false } else s

/-- Number of active streams pointing at a channel — the value produced for
that channel by the grouped aggregate query of
`_update_channel_stream_counts` (with the dict `.get(id, 0)` default). -/
def activeStreamCount (streams : List ChannelStream) (cid : Nat) : Nat :=
  (streams.filter (fun s => s.is_active && s.channel_id == cid)).length

/-- The stream-count assignment of `_update_channel_stream_counts`
(health_tasks.py:115-136): every channel's `stream_count` is set from the
aggregate (the function also recomputes priority_order among active
siblings; that part is not needed by the claims under verification). -/
def updateChannelStreamCounts (channels : List Channel)
    (streams : List ChannelStream) : List Channel :=
  channels.map (fun ch => { ch with stream_count := activeStreamCount streams ch.id })

/-- Python `int(x)` on a float/rational: truncation toward zero. -/
def pyTrunc (q : ℚ) : ℤ := if 0 ≤ q then ⌊q⌋ else -⌊-q⌋

/-- `StreamHealthChecker.calculate_health_score` (health_checker.py:187-221):
start at 100; subtract `min 50 (failures * 10)`; subtract a response-time
penalty (the zero response time is falsy in `if last_response_time:` and
skips the penalty); scale by `uptime/100` through `int(...)` when an uptime
is given; clamp into `[0, 100]`. -/
def calculate_health_score (consecutive_failures : Nat)
    (last_response_time : Option ℚ) (uptime_percentage : Option ℚ) : ℤ :=
  let score : ℤ := 100
  let score : ℤ := if 0 < consecutive_failures then
      score - min 50 ((consecutive_failures : ℤ) * 10) else score
  let score : ℤ := match last_response_time with
    | some t =>
      if t ≠ 0 then
        if 5000 < t then score - 30
        else if 3000 < t then score - 20
        else if 1000 < t then score - 10
        else score
      else score
    | none => score
  let score : ℤ := match uptime_percentage with
    | some u => pyTrunc ((score : ℚ) * (u / 100))
    | none => score
  max 0 (min 100 score)

/-- `QualityAnalyzer.RESOLUTION_PRIORITY` (quality_analyzer.py:16-31), in
dict insertion order. -/
def RESOLUTION_PRIORITY : List (String × ℤ) :=
  [("8K", 1000), ("4K", 900), ("2160p", 900), ("1440p", 800), ("QHD", 800),
   ("1080p", 700), ("FHD", 700), ("720p", 600), ("HD", 600), ("576p", 500),
   ("480p", 400), ("SD", 300), ("360p", 200), ("240p", 100)]

/-- `RESOLUTION_PRIORITY.get(res, 0)`. -/
def resPriority (res : String) : ℤ := (RESOLUTION_PRIORITY.lookup res).getD 0

/-- `QualityAnalyzer.extract_resolution_from_name` (quality_analyzer.py:53-72):
first RESOLUTION_PRIORITY key found as a whole word in the upper-cased
name.  The search is case-sensitive, mirroring the source (so keys
containing a lower-case letter can never match the upper-cased text). -/
def extract_resolution_from_name (name : String) : Option String :=
  let up := (strUpper name).toList
  (RESOLUTION_PRIORITY.map Prod.fst).find? (fun k => searchWordTok k.toList none up)

/-- `QualityAnalyzer.extract_resolution_from_url` (quality_analyzer.py:74-91):
first key contained as a substring of the upper-cased URL. -/
def extract_resolution_from_url (url : String) : Option String :=
  let up := (strUpper url).toList
  (RESOLUTION_PRIORITY.map Prod.fst).find? (fun k => containsSeq k.toList up)

/-- `QualityAnalyzer.QUALITY_BITRATES` (quality_analyzer.py:34-40). -/
def QUALITY_BITRATES : List (String × ℤ) :=
  [("4K", 15000), ("1080p", 5000), ("720p", 2500), ("480p", 1000), ("360p", 500)]

def pyTruthyInt : Option ℤ → Bool
  | none => false
  | some n => n != 0

/-- `QualityAnalyzer._get_expected_bitrate` (quality_analyzer.py:293-318). -/
def getExpectedBitrate (resolution : Option String) : Option ℤ :=
  if !(pyTruthyOpt resolution) then none
  else
    let r := resolution.getD ""
    if r == "4K" || r == "2160p" then QUALITY_BITRATES.lookup "4K"
    else if r == "1080p" || r == "FHD" then QUALITY_BITRATES.lookup "1080p"
    else if r == "720p" || r == "HD" then QUALITY_BITRATES.lookup "720p"
    else if r == "480p" || r == "SD" then QUALITY_BITRATES.lookup "480p"
    else if r == "360p" || r == "240p" then QUALITY_BITRATES.lookup "360p"
    else none

/-- `QualityAnalyzer._calculate_quality_score` (quality_analyzer.py:260-291):
resolution base score, +50 bonus when the bitrate reaches the expected
minimum, otherwise scaled down by the shortfall ratio through `int(...)`. -/
def calculateQualityScore (resolution : Option String) (bitrate : Option ℤ) : ℤ :=
  let score : ℤ := 0
  let score : ℤ := if pyTruthyOpt resolution then resPriority (resolution.getD "") else score
  if pyTruthyInt bitrate then
    let expected := getExpectedBitrate resolution
    if pyTruthyInt expected then
      let e := expected.getD 0
      let b := bitrate.getD 0
      if b ≥ e then score + 50
      else pyTrunc ((score : ℚ) * ((b : ℚ) / (e : ℚ)))
    else score
  else score

/-- The dictionary `_analyze_with_ffprobe` may return, with outer `Option`s
recording whether the corresponding key is present (the probe is external
I/O, so its output is an input of the model; an empty dict — falsy in
`if ffprobe_result:` — is represented by passing `none` for the whole
record). -/
structure FFprobeOut where
  resolution : Option String
  bitrate : Option ℤ
  codec : Option (Option String)
  fps : Option (Option ℚ)
deriving DecidableEq

/-- The result dictionary of `QualityAnalyzer.analyze_stream`. -/
structure QualityResult where
  resolution : Option String
  bitrate : Option ℤ
  codec : Option String
  fps : Option ℚ
  quality_score : ℤ
  analysis_method : String
deriving DecidableEq

/-- First stage of `analyze_stream` (quality_analyzer.py:115-121): when a
(truthy) stream name is given and yields a resolution, record it with
method name. -/
def nameStage (stream_name : Option String) (r : QualityResult) : QualityResult :=
  if pyTruthyOpt stream_name then
    match extract_resolution_from_name (stream_name.getD "") with
    | some res => { r with resolution := some res, quality_score := resPriority res,
                           analysis_method := "name" }
    | none => r
  else r

/-- Second stage (quality_analyzer.py:123-129): only when the resolution is
still unset (falsy), try the URL. -/
def urlStage (stream_url : String) (r : QualityResult) : QualityResult :=
  if !(pyTruthyOpt r.resolution) then
    match extract_resolution_from_url stream_url with
    | some res => { r with resolution := some res, quality_score := resPriority res,
                           analysis_method := "url" }
    | none => r
  else r

/-- Third stage (quality_analyzer.py:131-142): when bitrate analysis is
enabled and quick mode is off, a successful ffprobe result is merged over
the dictionary (`result.update`), the method becomes ffprobe and the
quality score is recomputed from the merged fields. -/
def ffprobeStage (ffprobe : Option FFprobeOut) (quick_mode enable_bitrate_analysis : Bool)
    (r : QualityResult) : QualityResult :=
  if enable_bitrate_analysis && !quick_mode then
    match ffprobe with
    | some d =>
      let res2 := match d.resolution with | some v => some v | none => r.resolution
      let bit2 := match d.bitrate with | some v => some v | none => r.bitrate
      let cod2 := match d.codec with | some v => v | none => r.codec
      let fps2 := match d.fps with | some v => v | none => r.fps
      { resolution := res2, bitrate := bit2, codec := cod2, fps := fps2,
        quality_score := calculateQualityScore res2 bit2,
        analysis_method := "ffprobe" }
    | none => r
  else r

/-- `QualityAnalyzer.analyze_stream` (quality_analyzer.py:93-144): the
default result dictionary pushed through the three stages in source
order. -/
def analyze_stream (stream_url : String) (stream_name : Option String)
    (quick_mode enable_bitrate_analysis : Bool) (ffprobe : Option FFprobeOut) :
    QualityResult :=
  ffprobeStage ffprobe quick_mode enable_bitrate_analysis
    (urlStage stream_url (nameStage stream_name ⟨none, none, none, none, 0, "none"⟩))

/-- A byte chunk flowing through the multiplexer. -/
abbrev ByteChunk := List Nat

/-- The `StreamProxy` fields read and written by `_fetch_stream`
(stream_connection_manager.py:19-86).  The queue is
`asyncio.Queue(maxsize=100)`; `none` entries are the end-of-stream
sentinel the source enqueues as `None`. -/
structure ProxyFetchState where
  queue : List (Option ByteChunk)
  chunks_sent : Nat
  bytes_sent : Nat
  error : Option String
  is_running : Bool
deriving DecidableEq

/-- One `await asyncio.wait_for(self._chunk_queue.put(chunk), timeout=5.0)`
(stream_connection_manager.py:66-76): when the queue has space the chunk is
appended; when it is full the loop waits out the 5-second timeout and then
abandons the put, dropping the incoming chunk (`continue`) and leaving the
buffered chunks untouched.  The Bool reports whether the chunk was
admitted. -/
def putChunkWithTimeout (q : List (Option ByteChunk)) (c : ByteChunk) :
    List (Option ByteChunk) × Bool :=
  if q.length < 100 then (q ++ [some c], true) else (q, false)

/-- The body of the chunk loop in `_fetch_stream`: counters advance only
when the chunk was admitted. -/
def fetchStreamStep (s : ProxyFetchState) (c : ByteChunk) : ProxyFetchState :=
  match putChunkWithTimeout s.queue c with
  | (q, true) => { s with queue := q, chunks_sent := s.chunks_sent + 1,
                          bytes_sent := s.bytes_sent + c.length }
  | (q, false) => { s with queue := q }

/-- `_fetch_stream` over the whole sequence of chunks the upstream
delivered; `err` is the terminal exception, if any: it is caught and
recorded in `error` (never re-raised), and the `finally` block enqueues the
`None` end-of-stream sentinel for the subscribers. -/
def fetchStream (s0 : ProxyFetchState) (chunks : List ByteChunk)
    (err : Option String) : ProxyFetchState :=
  let s := chunks.foldl fetchStreamStep s0
  { s with error := err, is_running := false, queue := s.queue ++ [none] }

/-- The behaviour §4.6 of the spec ascribes to a full queue, written from
the spec's words for comparison with `putChunkWithTimeout`: drop the OLDEST
buffered chunk to admit the newest. -/
def specDropOldestPut (q : List (Option ByteChunk)) (c : ByteChunk) :
    List (Option ByteChunk) := if q.length < 100 then q ++ [some c] else q.drop 1 ++ [some c]

/-- Chunk delivery of `read_chunks` (stream_connection_manager.py:88-103):
every subscriber awaits `get()` on the one shared `_chunk_queue`, and
`asyncio.Queue.get` removes the item it returns, so successive buffered
chunks go to whichever subscriber's pending `get` is served next.
`schedule` lists, for each successive chunk, the subscriber that receives
it (any interleaving the event loop can produce). -/
def dispatchChunks : List ByteChunk → List Nat → List (Nat × ByteChunk)
  | c :: cs, k :: ks => (k, c) :: dispatchChunks cs ks
  | _, _ => []

/-- The byte-chunk sequence subscriber `client` yields under a given
schedule. -/
def chunksReceivedBy (chunks : List ByteChunk) (schedule : List Nat)
    (client : Nat) : List ByteChunk :=
  (dispatchChunks chunks schedule).filterMap
    (fun p => if p.1 == client then some p.2 else none)

/-- The `StreamProxy` attributes consulted by the session registry. -/
structure StreamProxyMeta where
  stream_url : String
  channel_id : Nat
  is_running : Bool
  error : Option String
deriving DecidableEq

/-- `StreamProxy.is_alive`: `self.is_running and not self.error`. -/
def proxyIsAlive (p : StreamProxyMeta) : Bool :=
  p.is_running && !(pyTruthyOpt p.error)

/-- `StreamConnectionManager` state: the keyed registry plus the counters
relevant here (`total_streams_created` counts `proxy.start()` calls, i.e.
spawned upstream fetch tasks). -/
structure MuxManagerState where
  active_streams : List (String × StreamProxyMeta)
  total_streams_created : Nat
  total_clients_served : Nat
deriving DecidableEq

/-- `StreamConnectionManager._cache_key`. -/
def cacheKey (stream_url : String) (channel_id : Nat) : String :=
  toString channel_id ++ ":" ++ stream_url

/-- `StreamConnectionManager.get_or_create_stream`
(stream_connection_manager.py:149-184), which runs under `self._lock` (so
successive calls are serialized): reuse a live proxy for the key; replace a
dead one; otherwise create and start a new proxy (one new upstream fetch
task). -/
def getOrCreateStream (m : MuxManagerState) (stream_url : String)
    (channel_id : Nat) : MuxManagerState × StreamProxyMeta :=
  let key := cacheKey stream_url channel_id
  match m.active_streams.lookup key with
  | some p =>
    if proxyIsAlive p || (p.is_running && !(pyTruthyOpt p.error)) then
      ({ m with total_clients_served := m.total_clients_served + 1 }, p)
    else
      let p2 : StreamProxyMeta := ⟨stream_url, channel_id, true, none⟩
      ({ m with
          active_streams := (m.active_streams.filter (fun kv => kv.1 != key)) ++ [(key, p2)],
          total_streams_created := m.total_streams_created + 1 }, p2)
  | none =>
    let p2 : StreamProxyMeta := ⟨stream_url, channel_id, true, none⟩
    ({ m with active_streams := m.active_streams ++ [(key, p2)],
              total_streams_created := m.total_streams_created + 1 }, p2)

/-- A similarity oracle consistent with rapidfuzz on the pairs it is used
at: every scorer returns 100 on an identical pair and 0 otherwise (all four
rapidfuzz scorers return 100 on equal strings). -/
def oracleEq : FuzzOracle :=
  ⟨fun a b => if a = b then 100 else 0, fun a b => if a = b then 100 else 0,
   fun a b => if a = b then 100 else 0, fun a b => if a = b then 100 else 0⟩

/-- An existing channel whose raw name normalizes to foo with a detected
region, so that an incoming plain foo entry misses the exact key but
qualifies on the fuzzy path. -/
def fooEastChannel : Channel :=
  ⟨0, "Foo (East)", "foo", "Unknown", some "East", none, none, true, 3⟩

/-- An enabled operator rule forbidding any merge between two foo-named
channels. -/
def fooNeverMergeRule : MergeRule :=
  ⟨"never_merge", "foo", some "foo", none, none, none, 0, true⟩

/-- An existing channel that is an exact key match for a plain foo entry. -/
def fooPlainChannel : Channel :=
  ⟨0, "Foo", "foo", "Unknown", none, none, none, true, 5⟩

/-- The spec's region-disqualification example candidate. -/
def westChannel : Channel :=
  ⟨0, "Channel West", "channel", "Unknown", some "West", none, none, true, 1⟩

/-- An active stream with one recorded consecutive failure. -/
def probeStream : ChannelStream :=
  ⟨1, 1, "http://stream.example/a.ts", true, 1, 0, 0, none, none, none, none, none⟩

/-- An ffprobe result reporting a 720p stream. -/
def probeHD : FFprobeOut := ⟨some "720p", some 3000, some (some "h264"), none⟩

/-- A chunk queue at its maxsize of 100. -/
def fullQueue : List (Option ByteChunk) := List.replicate 100 (some [0])

/-- A fresh multiplexer registry. -/
def initMux : MuxManagerState := ⟨[], 0, 0⟩

/-- Helper: equal lower-cased contents give equal normalizations, because
`normalize_name` lower-cases first and everything after depends only on the
lower-cased character list. -/
theorem normalize_name_eq_of_lower_eq (xl yl : List Char)
    (hx : xl ≠ []) (hy : yl ≠ []) (hmap : pyLowerChars xl = pyLowerChars yl) :
    normalize_name (String.mk xl) = normalize_name (String.mk yl) := by
  have hxs : (String.mk xl) ≠ "" := fun hh => hx (congrArg String.data hh)
  have hys : (String.mk yl) ≠ "" := fun hh => hy (congrArg String.data hh)
  unfold normalize_name
  rw [if_neg hxs, if_neg hys]
  show String.mk (joinSplit (collapseWsGo false (subTrailing (subLeading
      (subDelimGo '(' ')' 0 (subDelimGo '[' ']' 0 (pyStripChars (pyLowerChars xl)))))))) =
    String.mk (joinSplit (collapseWsGo false (subTrailing (subLeading
      (subDelimGo '(' ')' 0 (subDelimGo '[' ']' 0 (pyStripChars (pyLowerChars yl))))))))
  rw [hmap]

/-- Claim C8 (counterexample): `normalize_name` is not idempotent — the
leading-separator pattern strips only one separator per application, so a
name starting with two dashes needs two applications to converge. -/
theorem c8_counterexample :
    normalize_name (normalize_name "--a") ≠ normalize_name "--a" := by decide

/-- Claim C8 (amended): name normalization is case-insensitive — inputs
with the same lower-cased content normalize identically, in particular the
speced ESPN examples collapse case and whitespace runs to the same string —
but `normalize(normalize(x)) = normalize(x)` does not hold for every x
(idempotence does hold at the normalized ESPN example). -/
theorem c8_normalization_properties :
    (∀ x y : String, x.toList ≠ [] → y.toList ≠ [] →
      pyLowerChars x.toList = pyLowerChars y.toList →
      normalize_name x = normalize_name y)
    ∧ normalize_name "ESPN HD" = normalize_name "espn hd"
    ∧ normalize_name "espn hd" = normalize_name "ESPN   HD  "
    ∧ normalize_name (normalize_name "ESPN HD") = normalize_name "ESPN HD" := by
  refine ⟨?_, by decide, by decide, by decide⟩
  intro x y hx hy hmap
  obtain ⟨xl⟩ := x
  obtain ⟨yl⟩ := y
  exact normalize_name_eq_of_lower_eq xl yl hx hy hmap

/-- Claim C8 witness: the amended case-insensitivity at a concrete pair. -/
theorem c8_witness : normalize_name "ESPN HD" = normalize_name "Espn hd" :=
  c8_normalization_properties.1 "ESPN HD" "Espn hd" (by decide) (by decide) (by decide)

/-- Helper: a candidate on which `is_same_channel` answers false is never
selected by the fuzzy fold. -/
theorem fuzzyStep_preserves_ne (fz : FuzzOracle) (thr : ℚ) (name : String)
    (region variant : Option String) (c : Channel)
    (hc : is_same_channel fz thr name c.name region c.region variant c.variant = false) :
    ∀ (cands : List Channel) (acc : Option Channel × ℚ), acc.1 ≠ some c →
      (List.foldl (fuzzyStep fz thr name region variant) acc cands).1 ≠ some c := by
  intro cands
  induction cands with
  | nil => intro acc h; simpa using h
  | cons ec rest ih =>
    intro acc h
    simp only [List.foldl_cons]
    apply ih
    cases hsc : is_same_channel fz thr name ec.name region ec.region variant ec.variant with
    | false => simpa [fuzzyStep, hsc] using h
    | true =>
      by_cases hlt : acc.2 < calculate_similarity fz name ec.name
      · intro hcontra
        have hec : ec = c := by simpa [fuzzyStep, hsc, hlt] using hcontra
        rw [hec] at hsc
        rw [hc] at hsc
        exact Bool.false_ne_true hsc
      · simpa [fuzzyStep, hsc, hlt] using h

/-- Claim C4: when a region is present on both sides and the two regions
differ (case-insensitively), or likewise for variants, the resolution never
attaches the entry to that candidate — the exact-key query cannot return it
and the fuzzy loop never selects it, for every similarity oracle and every
threshold. -/
theorem c4_region_variant_hard_disqualifier
    (fz : FuzzOracle) (thr : ℚ) (db cands : List Channel)
    (name nn : String) (region variant : Option String) (c : Channel)
    (h : (∃ r1 r2, region = some r1 ∧ c.region = some r2 ∧ r1 ≠ "" ∧ r2 ≠ "" ∧
            strLower r1 ≠ strLower r2)
       ∨ (∃ v1 v2, variant = some v1 ∧ c.variant = some v2 ∧ v1 ≠ "" ∧ v2 ≠ "" ∧
            strLower v1 ≠ strLower v2)) :
    exactMatchChannel db nn region variant ≠ some c
    ∧ (pickFuzzyMatch fz thr name region variant cands).1 ≠ some c := by
  have hc : is_same_channel fz thr name c.name region c.region variant c.variant = false := by
    unfold is_same_channel
    by_cases hsim : calculate_similarity fz (extract_base_name name)
        (extract_base_name c.name) < thr
    · rw [if_pos hsim]
    · rw [if_neg hsim]
      rcases h with ⟨r1, r2, h1, h2, h1n, h2n, hne⟩ | ⟨v1, v2, h1, h2, h1n, h2n, hne⟩
      · simp only [h1, h2]
        have hcond : pyTruthyOpt (some r1) = true ∧ pyTruthyOpt (some r2) = true ∧
            strLower ((some r1).getD "") ≠ strLower ((some r2).getD "") := by
          refine ⟨by simp [pyTruthyOpt, h1n], by simp [pyTruthyOpt, h2n], by simpa using hne⟩
        rw [if_pos hcond]
      · simp only [h1, h2]
        by_cases hr : pyTruthyOpt (match region with
              | none => extract_region name | some s => some s) = true ∧
            pyTruthyOpt (match c.region with
              | none => extract_region c.name | some s => some s) = true ∧
            strLower ((match region with
              | none => extract_region name | some s => some s).getD "") ≠
            strLower ((match c.region with
              | none => extract_region c.name | some s => some s).getD "")
        · rw [if_pos hr]
        · rw [if_neg hr]
          have hcond : pyTruthyOpt (some v1) = true ∧ pyTruthyOpt (some v2) = true ∧
              strLower ((some v1).getD "") ≠ strLower ((some v2).getD "") := by
            refine ⟨by simp [pyTruthyOpt, h1n], by simp [pyTruthyOpt, h2n], by simpa using hne⟩
          rw [if_pos hcond]
  constructor
  · intro hex
    have hp := List.find?_some hex
    simp only [Bool.and_eq_true, beq_iff_eq] at hp
    rcases h with ⟨r1, r2, h1, h2, _, _, hne⟩ | ⟨v1, v2, h1, h2, _, _, hne⟩
    · have hrr : some r2 = some r1 := by rw [← h2, ← h1, hp.1.2]
      obtain rfl : r2 = r1 := Option.some.inj hrr
      exact hne rfl
    · have hvv : some v2 = some v1 := by rw [← h2, ← h1, hp.2]
      obtain rfl : v2 = v1 := Option.some.inj hvv
      exact hne rfl
  · show (List.foldl (fuzzyStep fz thr name region variant) (none, 0) cands).1 ≠ some c
    exact fuzzyStep_preserves_ne fz thr name region variant c hc cands (none, 0) (by simp)

/-- Claim C4 witness: the spec's Channel East / Channel West example under
an oracle scoring every pair 100. -/
theorem c4_witness :
    exactMatchChannel [westChannel] "channel" (some "East") none ≠ some westChannel
    ∧ (pickFuzzyMatch oracleEq 85 "Channel East" (some "East") none [westChannel]).1
        ≠ some westChannel :=
  c4_region_variant_hard_disqualifier oracleEq 85 [westChannel] [westChannel]
    "Channel East" "channel" (some "East") none westChannel
    (Or.inl ⟨"East", "West", rfl, rfl, by decide, by decide, by decide⟩)

/-- Claim C1: the resolution path never consults MergeRule.  With an
enabled never_merge rule whose patterns match both the entry and the
candidate (per `MergeRule.matches`), `_find_or_create_channel` still
performs the fuzzy merge into the candidate. -/
theorem c1_merge_rules_not_consulted :
    fooNeverMergeRule.enabled = true
    ∧ fooNeverMergeRule.rule_type = "never_merge"
    ∧ mergeRuleMatches fooNeverMergeRule "Foo" "Foo (East)" none none = true
    ∧ calculate_similarity oracleEq "Foo" "Foo (East)" = 100
    ∧ (find_or_create_channel oracleEq 85 [fooEastChannel] "Foo" "foo"
        "Unknown" none none none).2.1.method = "fuzzy_match"
    ∧ (find_or_create_channel oracleEq 85 [fooEastChannel] "Foo" "foo"
        "Unknown" none none none).1.id = fooEastChannel.id := by
  exact ⟨rfl, rfl, by decide, by decide, by decide, by decide⟩

/-- Claim C5: per-stream health bookkeeping — a success resets the failure
streak to 0 and leaves the active flag unchanged; a failure increments the
streak, keeps the stream active strictly below 3 consecutive failures, and
deactivates it at 3 or more. -/
theorem c5_failure_threshold (now : Nat) (s : ChannelStream) (alive : Bool)
    (rt : Option ℚ) (err : Option String) :
    (alive = true →
      (applyHealthResult now s alive rt err).consecutive_failures = 0
      ∧ (applyHealthResult now s alive rt err).is_active = s.is_active)
    ∧ (alive = false →
      (applyHealthResult now s alive rt err).consecutive_failures
        = s.consecutive_failures + 1
      ∧ (s.consecutive_failures + 1 < 3 →
          (applyHealthResult now s alive rt err).is_active = s.is_active)
      ∧ (3 ≤ s.consecutive_failures + 1 →
          (applyHealthResult now s alive rt err).is_active = false)) := by
  constructor
  · intro ha; subst ha; constructor <;> simp [applyHealthResult]
  · intro ha; subst ha
    refine ⟨?_, ?_, ?_⟩
    · by_cases h3 : s.consecutive_failures + 1 ≥ 3 <;> simp [applyHealthResult, h3]
    · intro hlt
      have h3 : ¬(s.consecutive_failures + 1 ≥ 3) := by omega
      simp [applyHealthResult, h3]
    · intro hge; simp [applyHealthResult, hge]

/-- Claim C5 witness: a stream with one prior failure fails once more —
the streak becomes 2 and the stream stays active. -/
theorem c5_witness :
    (applyHealthResult 0 probeStream false none (some "Timeout")).consecutive_failures
      = probeStream.consecutive_failures + 1
    ∧ (applyHealthResult 0 probeStream false none (some "Timeout")).is_active
      = probeStream.is_active :=
  ⟨((c5_failure_threshold 0 probeStream false none (some "Timeout")).2 rfl).1,
   ((c5_failure_threshold 0 probeStream false none (some "Timeout")).2 rfl).2.1 (by decide)⟩

/-- Claim C6 (counterexample): an exact-key attach leaves the channel's
stream_count unchanged — it does not increment it by one as claimed. -/
theorem c6_counterexample :
    (find_or_create_channel oracleEq 85 [fooPlainChannel] "Foo" "foo"
      "Unknown" none none none).2.1.method = "exact_match"
    ∧ (find_or_create_channel oracleEq 85 [fooPlainChannel] "Foo" "foo"
      "Unknown" none none none).1.id = fooPlainChannel.id
    ∧ (find_or_create_channel oracleEq 85 [fooPlainChannel] "Foo" "foo"
      "Unknown" none none none).1.stream_count ≠ fooPlainChannel.stream_count + 1 := by
  exact ⟨by decide, by decide, by decide⟩

/-- Claim C6 (amended): during resolution the counter is only maintained
heuristically — the exact branch leaves it unchanged, the fuzzy branch adds
one, a new channel starts at one — and the invariant
(stream_count = number of active variants) is what the health batch's
`_update_channel_stream_counts` re-establishes for every channel. -/
theorem c6_stream_count_updates :
    (∀ (fz : FuzzOracle) (thr : ℚ) (db : List Channel)
        (name nn category : String) (region variant logo : Option String) (c : Channel),
      exactMatchChannel db nn region variant = some c →
      (find_or_create_channel fz thr db name nn category region variant logo).1.stream_count
        = c.stream_count)
    ∧ (∀ (fz : FuzzOracle) (thr : ℚ) (db : List Channel)
        (name nn category : String) (region variant logo : Option String)
        (c : Channel) (best : ℚ),
      exactMatchChannel db nn region variant = none →
      pickFuzzyMatch fz thr name region variant (fuzzyCandidates db nn) = (some c, best) →
      (find_or_create_channel fz thr db name nn category region variant logo).1.stream_count
        = c.stream_count + 1)
    ∧ (∀ (fz : FuzzOracle) (thr : ℚ) (db : List Channel)
        (name nn category : String) (region variant logo : Option String),
      exactMatchChannel db nn region variant = none →
      (pickFuzzyMatch fz thr name region variant (fuzzyCandidates db nn)).1 = none →
      (find_or_create_channel fz thr db name nn category region variant logo).1.stream_count
        = 1)
    ∧ (∀ (channels : List Channel) (streams : List ChannelStream) (ch : Channel),
      ch ∈ updateChannelStreamCounts channels streams →
      ch.stream_count = activeStreamCount streams ch.id) := by
  refine ⟨?_, ?_, ?_, ?_⟩
  · intro fz thr db name nn category region variant logo c hex
    unfold find_or_create_channel
    rw [hex]
    show (backfillLogo c logo).stream_count = c.stream_count
    unfold backfillLogo
    split <;> rfl
  · intro fz thr db name nn category region variant logo c best hex hfz
    unfold find_or_create_channel
    rw [hex, hfz]
    show (backfillLogo c logo).stream_count + 1 = c.stream_count + 1
    unfold backfillLogo
    split <;> rfl
  · intro fz thr db name nn category region variant logo hex hfz
    have hp : pickFuzzyMatch fz thr name region variant (fuzzyCandidates db nn)
        = (none, (pickFuzzyMatch fz thr name region variant (fuzzyCandidates db nn)).2) := by
      rw [← hfz]
    unfold find_or_create_channel
    rw [hex, hp]
    rfl
  · intro channels streams ch hch
    simp only [updateChannelStreamCounts, List.mem_map] at hch
    obtain ⟨ch0, _, rfl⟩ := hch
    rfl

/-- Claim C6 witness: the exact-branch behaviour at the concrete channel,
plus the invariant restoration on a concrete table. -/
theorem c6_witness :
    (find_or_create_channel oracleEq 85 [fooPlainChannel] "Foo" "foo"
      "Unknown" none none none).1.stream_count = fooPlainChannel.stream_count :=
  c6_stream_count_updates.1 oracleEq 85 [fooPlainChannel] "Foo" "foo"
    "Unknown" none none none fooPlainChannel (by decide)

/-- Claim C7 (counterexample): the new-channel branch does not label its
decision with method new nor with the exact reason text of the claim. -/
theorem c7_counterexample :
    (find_or_create_channel oracleEq 85 [] "BBC One" "bbc one" "News"
      none none none).2.1.method ≠ "new"
    ∧ (find_or_create_channel oracleEq 85 [] "BBC One" "bbc one" "News"
      none none none).2.1.reason ≠ "first stream for new channel" := by
  exact ⟨by decide, by decide⟩

/-- Claim C7 (amended): when no exact key matches and no fuzzy candidate is
selected, a new channel seeded from the entry is created (enabled, one
stream) and the decision carries confidence 100, method exact_match (the
source reuses that label for the new-channel case) and reason
First stream for new channel quoting the raw name. -/
theorem c7_new_channel_decision (fz : FuzzOracle) (thr : ℚ) (db : List Channel)
    (name nn category : String) (region variant logo : Option String)
    (hex : exactMatchChannel db nn region variant = none)
    (hfz : (pickFuzzyMatch fz thr name region variant (fuzzyCandidates db nn)).1 = none) :
    find_or_create_channel fz thr db name nn category region variant logo =
      (newChannelFrom db name nn category region variant logo,
        ⟨100, "exact_match", newChannelReason name⟩,
        db ++ [newChannelFrom db name nn category region variant logo]) := by
  have hp : pickFuzzyMatch fz thr name region variant (fuzzyCandidates db nn)
      = (none, (pickFuzzyMatch fz thr name region variant (fuzzyCandidates db nn)).2) := by
    rw [← hfz]
  unfold find_or_create_channel
  rw [hex, hp]

/-- Claim C7 witness: resolving against an empty channel table. -/
theorem c7_witness :
    find_or_create_channel oracleEq 85 [] "BBC One" "bbc one" "News" none none none =
      (newChannelFrom [] "BBC One" "bbc one" "News" none none none,
        ⟨100, "exact_match", newChannelReason "BBC One"⟩,
        [] ++ [newChannelFrom [] "BBC One" "bbc one" "News" none none none]) :=
  c7_new_channel_decision oracleEq 85 [] "BBC One" "bbc one" "News" none none none rfl rfl

/-- Helper: a resolution found in the name list is one of the
RESOLUTION_PRIORITY keys, hence nonempty. -/
theorem extract_res_name_ne_empty (name res : String)
    (h : extract_resolution_from_name name = some res) : res ≠ "" := by
  have hm : res ∈ RESOLUTION_PRIORITY.map Prod.fst :=
    List.mem_of_find?_eq_some (by simpa [extract_resolution_from_name] using h)
  fin_cases hm <;> decide

/-- Helper: the name stage records a resolution found in a truthy name. -/
theorem nameStage_hit (name : Option String) (r : QualityResult) (res : String)
    (htr : pyTruthyOpt name = true)
    (hres : extract_resolution_from_name (name.getD "") = some res) :
    nameStage name r = { r with resolution := some res,
                                quality_score := resPriority res,
                                analysis_method := "name" } := by
  unfold nameStage
  rw [htr, hres]
  simp

/-- Helper: the name stage is the identity when the name is falsy or yields
no resolution. -/
theorem nameStage_miss (name : Option String) (r : QualityResult)
    (h : pyTruthyOpt name = true → extract_resolution_from_name (name.getD "") = none) :
    nameStage name r = r := by
  unfold nameStage
  cases htr : pyTruthyOpt name with
  | false => simp
  | true => rw [h htr]; simp

/-- Helper: the URL stage records a URL-detected resolution when the
current resolution is falsy. -/
theorem urlStage_hit (url : String) (r : QualityResult) (res : String)
    (h0 : pyTruthyOpt r.resolution = false)
    (hurl : extract_resolution_from_url url = some res) :
    urlStage url r = { r with resolution := some res,
                              quality_score := resPriority res,
                              analysis_method := "url" } := by
  unfold urlStage
  rw [h0, hurl]
  simp

/-- Helper: the URL stage is skipped once a truthy resolution is set. -/
theorem urlStage_skip (url : String) (r : QualityResult)
    (h0 : pyTruthyOpt r.resolution = true) : urlStage url r = r := by
  unfold urlStage
  rw [h0]
  simp

/-- Helper: the ffprobe stage is the identity when disabled or in quick
mode. -/
theorem ffprobeStage_off (probe : Option FFprobeOut) (quick enable : Bool)
    (r : QualityResult) (hqe : (enable && !quick) = false) :
    ffprobeStage probe quick enable r = r := by
  unfold ffprobeStage
  rw [hqe]
  simp

/-- Helper: an enabled, non-quick, successful probe stamps the method as
ffprobe. -/
theorem ffprobeStage_on (probe : Option FFprobeOut) (d : FFprobeOut)
    (quick enable : Bool) (r : QualityResult) (hqe : (enable && !quick) = true)
    (hp : probe = some d) :
    (ffprobeStage probe quick enable r).analysis_method = "ffprobe" := by
  unfold ffprobeStage
  rw [hqe, hp]
  simp

/-- Claim C9 (counterexample): with bitrate analysis enabled and quick mode
off, a successful ffprobe run overrides a resolution already detected from
the name and records ffprobe as the method — the first successful source
does not win. -/
theorem c9_counterexample :
    extract_resolution_from_name "Foo HD" = some "HD"
    ∧ (analyze_stream "http://upstream/a.ts" (some "Foo HD") false true
        (some probeHD)).analysis_method = "ffprobe"
    ∧ (analyze_stream "http://upstream/a.ts" (some "Foo HD") false true
        (some probeHD)).resolution = some "720p"
    ∧ (analyze_stream "http://upstream/a.ts" (some "Foo HD") false true
        (some probeHD)).analysis_method ≠ "name" := by
  exact ⟨by decide, by decide, by decide, by decide⟩

/-- Claim C9 (amended): the name is tried before the URL and the first of
those two that yields a resolution wins and is recorded — but the ffprobe
stage is not a fallback: whenever bitrate analysis is enabled, quick mode
is off and the probe returns data, its result overrides the earlier
detection and the method is recorded as ffprobe. -/
theorem c9_detection_order :
    (∀ (url : String) (name : Option String) (res : String)
        (quick enable : Bool) (probe : Option FFprobeOut),
      pyTruthyOpt name = true →
      extract_resolution_from_name (name.getD "") = some res →
      (enable && !quick) = false →
      (analyze_stream url name quick enable probe).resolution = some res
      ∧ (analyze_stream url name quick enable probe).analysis_method = "name")
    ∧ (∀ (url : String) (name : Option String) (res : String)
        (quick enable : Bool) (probe : Option FFprobeOut),
      (pyTruthyOpt name = true → extract_resolution_from_name (name.getD "") = none) →
      extract_resolution_from_url url = some res →
      (enable && !quick) = false →
      (analyze_stream url name quick enable probe).resolution = some res
      ∧ (analyze_stream url name quick enable probe).analysis_method = "url")
    ∧ (∀ (url : String) (name : Option String) (quick enable : Bool) (d : FFprobeOut),
      (enable && !quick) = true →
      (analyze_stream url name quick enable (some d)).analysis_method = "ffprobe") := by
  refine ⟨?_, ?_, ?_⟩
  · intro url name res quick enable probe htr hres hqe
    have hne : res ≠ "" := extract_res_name_ne_empty (name.getD "") res hres
    unfold analyze_stream
    rw [ffprobeStage_off _ _ _ _ hqe, nameStage_hit name _ res htr hres,
      urlStage_skip url _ (by simp [pyTruthyOpt, hne])]
    exact ⟨rfl, rfl⟩
  · intro url name res quick enable probe hname hurl hqe
    unfold analyze_stream
    rw [ffprobeStage_off _ _ _ _ hqe, nameStage_miss name _ hname]
    rw [urlStage_hit url _ res (by rfl) hurl]
    exact ⟨rfl, rfl⟩
  · intro url name quick enable d hqe
    unfold analyze_stream
    rw [ffprobeStage_on (some d) d _ _ _ hqe rfl]

/-- Claim C9 witness: in quick mode the name detection wins and is
recorded. -/
theorem c9_witness :
    (analyze_stream "http://upstream/a.ts" (some "Foo HD") true true none).resolution
      = some "HD"
    ∧ (analyze_stream "http://upstream/a.ts" (some "Foo HD") true true
        none).analysis_method = "name" :=
  c9_detection_order.1 "http://upstream/a.ts" (some "Foo HD") "HD" true true none
    (by decide) (by decide) (by decide)

/-- Claim C10: for any consecutive-failure count, any last response time
and any uptime percentage in 0-100 (or absent), the health score lies in
0..100 inclusive. -/
theorem c10_health_score_bounded (cf : Nat) (rt up : Option ℚ)
    (_hup : ∀ u, up = some u → 0 ≤ u ∧ u ≤ 100) :
    0 ≤ calculate_health_score cf rt up ∧ calculate_health_score cf rt up ≤ 100 := by
  obtain ⟨z, hz⟩ : ∃ z : ℤ, calculate_health_score cf rt up = max 0 (min 100 z) := ⟨_, rfl⟩
  rw [hz]
  exact ⟨le_max_left 0 _, max_le (by norm_num) (min_le_left 100 z)⟩

/-- Claim C10 witness: a heavily failing, slow stream at 50 percent
uptime. -/
theorem c10_witness :
    0 ≤ calculate_health_score 7 (some 6000) (some 50)
    ∧ calculate_health_score 7 (some 6000) (some 50) ≤ 100 :=
  c10_health_score_bounded 7 (some 6000) (some 50)
    (fun u hu => by injection hu with h; subst h; constructor <;> norm_num)

/-- Claim C2 (counterexample): a put against a full queue keeps the 100
buffered chunks and rejects the incoming one — it does not drop the oldest
to admit the newest as the claim states. -/
theorem c2_counterexample :
    (putChunkWithTimeout fullQueue [1]).1 = fullQueue
    ∧ (putChunkWithTimeout fullQueue [1]).2 = false
    ∧ (putChunkWithTimeout fullQueue [1]).1 ≠ specDropOldestPut fullQueue [1] := by
  exact ⟨by decide, by decide, by decide⟩

/-- Claim C2 (amended): while streaming, each arriving chunk is appended to
the bounded queue when it holds fewer than 100 chunks; when the queue is
full the put is abandoned after its 5-second timeout and the incoming
(newest) chunk is dropped with the buffer left untouched; the fetch loop
catches upstream errors, records them in the proxy's error field, and
always enqueues the end-of-stream sentinel for subscribers instead of
propagating an exception. -/
theorem c2_queue_policy :
    (∀ (q : List (Option ByteChunk)) (c : ByteChunk), q.length < 100 →
      putChunkWithTimeout q c = (q ++ [some c], true))
    ∧ (∀ (q : List (Option ByteChunk)) (c : ByteChunk), 100 ≤ q.length →
      putChunkWithTimeout q c = (q, false))
    ∧ (∀ (s0 : ProxyFetchState) (chunks : List ByteChunk) (err : Option String),
      (fetchStream s0 chunks err).queue
        = (chunks.foldl fetchStreamStep s0).queue ++ [none]
      ∧ (fetchStream s0 chunks err).error = err
      ∧ (fetchStream s0 chunks err).is_running = false) := by
  refine ⟨?_, ?_, ?_⟩
  · intro q c h; unfold putChunkWithTimeout; rw [if_pos h]
  · intro q c h; unfold putChunkWithTimeout; rw [if_neg (by omega)]
  · intro s0 chunks err; exact ⟨rfl, rfl, rfl⟩

/-- Claim C2 witness: the put at an empty queue and at the full queue. -/
theorem c2_witness :
    putChunkWithTimeout [] [7] = ([some [7]], true)
    ∧ putChunkWithTimeout fullQueue [7] = (fullQueue, false) :=
  ⟨c2_queue_policy.1 [] [7] (by decide), c2_queue_policy.2.1 fullQueue [7] (by decide)⟩

/-- Claim C3: two sequential acquires for the same key (the registry lock
serializes them) start exactly one upstream fetch task and hand back the
same proxy — but the subscribers then share that proxy's single chunk
queue, and a queue get consumes its chunk, so with two subscribers and two
buffered chunks each subscriber receives only one of them: no subscriber
reads the full chunk sequence. -/
theorem c3_fanout_partition :
    (getOrCreateStream (getOrCreateStream initMux "http://u/live.ts" 7).1
        "http://u/live.ts" 7).1.total_streams_created = 1
    ∧ (getOrCreateStream (getOrCreateStream initMux "http://u/live.ts" 7).1
        "http://u/live.ts" 7).2 = (getOrCreateStream initMux "http://u/live.ts" 7).2
    ∧ chunksReceivedBy [[10], [20]] [0, 1] 0 = [[10]]
    ∧ chunksReceivedBy [[10], [20]] [0, 1] 1 = [[20]]
    ∧ chunksReceivedBy [[10], [20]] [0, 1] 0 ≠ [[10], [20]] := by
  exact ⟨by decide, by decide, by decide, by decide, by decide⟩

end M3U
